import Mathlib

/-!
Verification development for the MCP node template repository.

The embedding follows `BaseMCPConfigSchema`, `BaseMCPServer` and its
accessors (as printed in the repository README, which embeds
`base-mcp-server.ts`), the `GreetingsMCP` example server
(`src/mcp/examples/greetings.mcp.server.ts`) and the `CalculatorMCP`
example server.

JavaScript numbers are modelled as rationals (`ℚ`); strings as Lean
`String` (the zod `.min`/`.max` string checks are length bounds).
-/

/-- The session-id generator of a streaming-HTTP transport is a function
value in the SDK; the model only tracks its presence (`some ()`) or
absence (`none`, the sessionless/stateless mode). -/
structure StreamableHTTPServerTransport where
  sessionIdGenerator : Option Unit
deriving DecidableEq, Repr

/-- A pipe-based transport wraps an input and an output stream; the model
records them as file-descriptor numbers.  `new StdioServerTransport()`
defaults to the process's stdin (fd 0) and stdout (fd 1). -/
structure StdioServerTransport where
  stdin : Nat
  stdout : Nat
deriving DecidableEq, Repr

/-- `new StdioServerTransport()` with no arguments. -/
def StdioServerTransport.new : StdioServerTransport := ⟨0, 1⟩

/-- The union `StreamableHTTPServerTransport | StdioServerTransport`
accepted by the `transport` configuration field. -/
inductive Transport
  | http : StreamableHTTPServerTransport → Transport
  | stdio : StdioServerTransport → Transport
deriving DecidableEq, Repr

/-- `type TransportMode = "streamable-http" | "stdio"`. -/
inductive TransportMode
  | streamableHttp
  | stdio
deriving DecidableEq, Repr

/-- Parsing of the `z.enum(["streamable-http", "stdio"])` member: the
enum check succeeds exactly on its two member strings. -/
def TransportMode.ofString? (m : String) : Option TransportMode :=
  if m = "streamable-http" then some .streamableHttp
  else if m = "stdio" then some .stdio
  else none

/-- A raw configuration record handed to the constructor, before zod
validation: `{name, version, host?, port?, transportMode?, transport?}`.
`name` and `version` are the required fields; the optional fields are
`none` when omitted.  The raw `transportMode` is an arbitrary string. -/
structure RawConfig where
  name : String
  version : String
  host : Option String
  port : Option ℚ
  transportMode : Option String
  transport : Option Transport
deriving DecidableEq

/-- The zod validation failure raised by `BaseMCPConfigSchema.parse`. -/
inductive ValidationError
  | invalidConfig
deriving DecidableEq, Repr

/-- The fully-populated configuration returned by
`BaseMCPConfigSchema.parse` (type `BaseMCPConfig`). -/
structure BaseMCPConfig where
  name : String
  version : String
  host : String
  port : ℚ
  transportMode : TransportMode
  transport : Option Transport
deriving DecidableEq

namespace BaseMCPConfigSchema

/--
`BaseMCPConfigSchema.parse`:

```
name: z.string().min(2).max(100),
version: z.string().min(1).max(10),
host: z.string().min(2).max(100).default("localhost"),
port: z.number().min(1).max(65535).default(3000),
transportMode: z.enum(["streamable-http", "stdio"]).default("stdio"),
transport: z.union([...]).optional()
```

A `.default(v)` field replaces an omitted value by `v` before the checks
run.  `z.number().min(1).max(65535)` is a numeric range check with no
integrality constraint.  The transport union accepts either transport
variant irrespective of the declared mode.
-/
def parse (raw : RawConfig) : Except ValidationError BaseMCPConfig :=
  let host := raw.host.getD "localhost"
  let port := raw.port.getD 3000
  match TransportMode.ofString? (raw.transportMode.getD "stdio") with
  | none => .error .invalidConfig
  | some tm =>
    if (2 ≤ raw.name.length ∧ raw.name.length ≤ 100) ∧
       (1 ≤ raw.version.length ∧ raw.version.length ≤ 10) ∧
       (2 ≤ host.length ∧ host.length ≤ 100) ∧
       (1 ≤ port ∧ port ≤ 65535) then
      .ok { name := raw.name, version := raw.version, host := host,
            port := port, transportMode := tm, transport := raw.transport }
    else
      .error .invalidConfig

end BaseMCPConfigSchema

example :
    ∃ cfg, BaseMCPConfigSchema.parse
      ⟨"GreetingsMCP", "1.0.0", none, none, none, none⟩ = .ok cfg ∧
      cfg.host = "localhost" ∧ cfg.port = 3000 ∧
      cfg.transportMode = .stdio := by
  refine ⟨_, rfl, rfl, by decide, rfl⟩

example :
    BaseMCPConfigSchema.parse ⟨"T", "1.0", none, none, some "stdio", none⟩ =
      .error .invalidConfig := by rfl

/-- A registered tool's metadata: the `{description, inputSchema,
outputSchema}` record passed to `registerTool`; the schemas are recorded
by their field names (their zod refinements live in the external
schema-validation collaborator). -/
structure ToolDescriptor where
  description : String
  inputSchemaFields : List String
  outputSchemaFields : List String
deriving DecidableEq, Repr

/-- A registered resource's metadata: the uri plus the
`{description, content?, metadata?}` record passed to `registerResource`. -/
structure ResourceDescriptor where
  uri : String
  description : String
  content : Option String
  metadata : List (String × String)
deriving DecidableEq, Repr

/-- The duplicate-name registration failure. -/
structure DuplicateNameError where
  name : String
deriving DecidableEq, Repr

/-- The component registry of one server instance: the name-indexed tools
and resources, in insertion order. -/
structure Registry where
  tools : List (String × ToolDescriptor)
  resources : List (String × ResourceDescriptor)
deriving DecidableEq

/-- Modelled from the spec: the registration operation behind
`registerToolHelper` is the external SDK's `registerTool`, whose code is
not in this repository.  Per the spec it "adds a ToolDescriptor. Fails
with `DuplicateNameError` if `name` already exists in the registry", and
registration order is insertion order. -/
def Registry.registerTool (r : Registry) (name : String) (d : ToolDescriptor) :
    Except DuplicateNameError Registry :=
  if (r.tools.lookup name).isSome then .error ⟨name⟩
  else .ok { r with tools := r.tools ++ [(name, d)] }

/-- Modelled from the spec: the external SDK's `registerResource`, "same
duplicate-name policy" as `registerTool`. -/
def Registry.registerResource (r : Registry) (name : String) (d : ResourceDescriptor) :
    Except DuplicateNameError Registry :=
  if (r.resources.lookup name).isSome then .error ⟨name⟩
  else .ok { r with resources := r.resources ++ [(name, d)] }

namespace BaseMCPServer

/--
`BaseMCPServer.initializeTransport`, returning the pair
`(httpTransporter, stdioTransporter)` the method leaves behind (both
fields start unset; exactly one branch assigns exactly one of them):

```
if (this.transportMode === "streamable-http") {
  if (customTransport && customTransport instanceof StreamableHTTPServerTransport) {
    this.httpTransporter = customTransport;
  } else {
    this.httpTransporter = new StreamableHTTPServerTransport({ sessionIdGenerator: undefined });
  }
} else {
  if (customTransport && customTransport instanceof StdioServerTransport) {
    this.stdioTransporter = customTransport;
  } else {
    this.stdioTransporter = new StdioServerTransport();
  }
}
```
-/
def initializeTransport (transportMode : TransportMode)
    (customTransport : Option Transport) :
    Option StreamableHTTPServerTransport × Option StdioServerTransport :=
  match transportMode with
  | .streamableHttp =>
    match customTransport with
    | some (.http t) => (some t, none)
    | _ => (some { sessionIdGenerator := none }, none)
  | .stdio =>
    match customTransport with
    | some (.stdio t) => (none, some t)
    | _ => (none, some StdioServerTransport.new)

end BaseMCPServer

/-- The state of a constructed `BaseMCPServer`: the validated
configuration fields copied by the constructor, the transporter fields
set by `initializeTransport`, and the component registry populated
through the SDK by `registerComponents`. -/
structure ServerCore where
  name : String
  version : String
  host : String
  port : ℚ
  transportMode : TransportMode
  httpTransporter : Option StreamableHTTPServerTransport
  stdioTransporter : Option StdioServerTransport
  registry : Registry
deriving DecidableEq

/-- Construction errors: zod validation at `parse`, or a duplicate name
raised by a registration call inside `registerComponents`. -/
inductive MCPError
  | validation : ValidationError → MCPError
  | duplicateName : DuplicateNameError → MCPError
deriving DecidableEq

namespace BaseMCPServer

/--
The `BaseMCPServer` constructor: validate the configuration with
`BaseMCPConfigSchema.parse`, copy the validated fields, initialize the
transport for the declared mode, then invoke the subclass's
`registerComponents` hook on the (initially empty) registry.  The hook is
the subclass-supplied registration closure; it acts on the registry alone
(the transporter fields are `private` to the base class). -/
def construct (registerComponents : Registry → Except DuplicateNameError Registry)
    (raw : RawConfig) : Except MCPError ServerCore :=
  match BaseMCPConfigSchema.parse raw with
  | .error e => .error (.validation e)
  | .ok cfg =>
    let t := initializeTransport cfg.transportMode cfg.transport
    match registerComponents ⟨[], []⟩ with
    | .error e => .error (.duplicateName e)
    | .ok reg =>
      .ok { name := cfg.name, version := cfg.version, host := cfg.host,
            port := cfg.port, transportMode := cfg.transportMode,
            httpTransporter := t.1, stdioTransporter := t.2,
            registry := reg }

end BaseMCPServer

/-- `getHTTPTransporter(): StreamableHTTPServerTransport | undefined`. -/
def ServerCore.getHTTPTransporter (s : ServerCore) :
    Option StreamableHTTPServerTransport :=
  s.httpTransporter

/-- `getStdioTransporter(): StdioServerTransport | undefined`. -/
def ServerCore.getStdioTransporter (s : ServerCore) :
    Option StdioServerTransport :=
  s.stdioTransporter

/-- The record returned by `getMetadata()`. -/
structure ServerMetadata where
  name : String
  version : String
  transportMode : TransportMode
  host : String
  port : ℚ
deriving DecidableEq

/-- `getMetadata()`: the read-only snapshot of the server's
name/version/transportMode/host/port. -/
def ServerCore.getMetadata (s : ServerCore) : ServerMetadata :=
  { name := s.name, version := s.version, transportMode := s.transportMode,
    host := s.host, port := s.port }

/-- A structured-payload value (string or number), for the
`structuredContent` objects the example handlers build. -/
inductive JsonValue
  | str : String → JsonValue
  | num : ℚ → JsonValue
deriving DecidableEq, Repr

/-- One entry of a tool result's `content` array; the examples only emit
`{type: "text", text}` entries. -/
structure ContentItem where
  type : String
  text : String
deriving DecidableEq, Repr

/-- The `CallToolResult` shape
`{content: [...], structuredContent?: {...}}`; a structured payload is a
field-ordered object. -/
structure CallToolResult where
  content : List ContentItem
  structuredContent : Option (List (String × JsonValue))
deriving DecidableEq, Repr

/-- Stand-in for JavaScript's number-to-string coercion inside template
literals; the exact digit strings it produces are irrelevant to the
claims proved here. -/
def jsNumberToString (q : ℚ) : String :=
  toString q

namespace GreetingsMCP

/-- The `'greet'` tool's registration record in
`GreetingsMCP.registerComponents`. -/
def greetDescriptor : ToolDescriptor :=
  { description := "Greet the user",
    inputSchemaFields := ["name"],
    outputSchemaFields := ["text"] }

/-- The `'notice.txt'` resource's registration record. -/
def noticeDescriptor : ResourceDescriptor :=
  { uri := "https://shivajichk.ac.in/pdf/1_International_Yoga_Day_Celebration_ATR.pdf",
    description := "A sample notice file",
    content := some "/Users/aman/Developer/SynergyBoat/content-gen/src/assets/pdf/notice.pdf",
    metadata := [] }

/-- The `'regiter_custom_greeting'` tool's registration record (the name
is spelled that way in the source). -/
def regiterCustomGreetingDescriptor : ToolDescriptor :=
  { description := "This tool will register new custom greeting message",
    inputSchemaFields := [],
    outputSchemaFields := ["text"] }

/-- The `'custom_greet'` tool's registration record, registered late by
the `registerCustomGreeting` handler. -/
def customGreetDescriptor : ToolDescriptor :=
  { description := "Greet the user with a custom message",
    inputSchemaFields := ["name", "message"],
    outputSchemaFields := ["text"] }

/-- `GreetingsMCP.registerComponents`: register the `greet` tool, the
`notice.txt` resource, then the `regiter_custom_greeting` tool. -/
def registerComponents (r : Registry) : Except DuplicateNameError Registry := do
  let r ← r.registerTool "greet" greetDescriptor
  let r ← r.registerResource "notice.txt" noticeDescriptor
  let r ← r.registerTool "regiter_custom_greeting" regiterCustomGreetingDescriptor
  return r

/-- The `GreetingsMCP` constructor: the base-class constructor with this
subclass's registration hook. -/
def construct (raw : RawConfig) : Except MCPError ServerCore :=
  BaseMCPServer.construct registerComponents raw

/-- The validated argument record of the `greet` tool. -/
structure GreetArgs where
  name : String
deriving DecidableEq

/--
`GreetingsMCP.greet`:

```
return {
  content: [{ type: "text",
              text: `Hello, ${args.name}! Welcome to ${this.name} version ${this.version}.` }],
  structuredContent: {
    text: `Hello, ${args.name}! Welcome to ${this.name} version ${this.version}.` }
};
```
-/
def greet (s : ServerCore) (args : GreetArgs) : CallToolResult :=
  let msg := "Hello, " ++ args.name ++ "! Welcome to " ++ s.name ++
    " version " ++ s.version ++ "."
  { content := [{ type := "text", text := msg }],
    structuredContent := some [("text", .str msg)] }

/-- `GreetingsMCP.registerCustomGreeting`: the handler of
`regiter_custom_greeting`; it registers the `custom_greet` tool on its
own server (a late registration through the SDK, which raises the
duplicate-name error if `custom_greet` already exists) and returns a
success message. -/
def registerCustomGreeting (s : ServerCore) :
    Except DuplicateNameError (ServerCore × CallToolResult) := do
  let r ← s.registry.registerTool "custom_greet" customGreetDescriptor
  return ({ s with registry := r },
    { content := [{ type := "text",
                    text := "Custom greeting registered successfully!" }],
      structuredContent :=
        some [("text", .str "Custom greeting registered successfully!")] })

/-- The validated argument record of the `custom_greet` tool. -/
structure CustomGreetArgs where
  name : String
  message : String
deriving DecidableEq

/-- `GreetingsMCP.customGreet`. -/
def customGreet (args : CustomGreetArgs) : CallToolResult :=
  let msg := "Hello, " ++ args.name ++ "! " ++ args.message
  { content := [{ type := "text", text := msg }],
    structuredContent := some [("text", .str msg)] }

end GreetingsMCP

namespace CalculatorMCP

/-- The validated argument record of the `calculate` tool: the zod input
schema is `{operation: z.enum(['add','subtract','multiply','divide']),
a: z.number(), b: z.number()}`; the handler itself types `operation` as a
plain string and keeps a default branch. -/
structure CalculateArgs where
  operation : String
  a : ℚ
  b : ℚ
deriving DecidableEq

/--
`CalculatorMCP.calculate`: the four-way `switch` on `args.operation`.
The `divide` branch returns
`{content: [{type:"text", text:"Error: Division by zero"}],
structuredContent: {error: "Division by zero"}}` when `args.b === 0`,
otherwise `result = args.a / args.b`; every branch returns (nothing is
thrown).
-/
def calculate (args : CalculateArgs) : CallToolResult :=
  match args.operation with
  | "add" =>
    let result := args.a + args.b
    let expression := jsNumberToString args.a ++ " + " ++
      jsNumberToString args.b ++ " = " ++ jsNumberToString result
    { content := [{ type := "text", text := expression }],
      structuredContent :=
        some [("result", .num result), ("expression", .str expression)] }
  | "subtract" =>
    let result := args.a - args.b
    let expression := jsNumberToString args.a ++ " - " ++
      jsNumberToString args.b ++ " = " ++ jsNumberToString result
    { content := [{ type := "text", text := expression }],
      structuredContent :=
        some [("result", .num result), ("expression", .str expression)] }
  | "multiply" =>
    let result := args.a * args.b
    let expression := jsNumberToString args.a ++ " × " ++
      jsNumberToString args.b ++ " = " ++ jsNumberToString result
    { content := [{ type := "text", text := expression }],
      structuredContent :=
        some [("result", .num result), ("expression", .str expression)] }
  | "divide" =>
    if args.b = 0 then
      { content := [{ type := "text", text := "Error: Division by zero" }],
        structuredContent := some [("error", .str "Division by zero")] }
    else
      let result := args.a / args.b
      let expression := jsNumberToString args.a ++ " ÷ " ++
        jsNumberToString args.b ++ " = " ++ jsNumberToString result
      { content := [{ type := "text", text := expression }],
        structuredContent :=
          some [("result", .num result), ("expression", .str expression)] }
  | _ =>
    { content := [{ type := "text", text := "Error: Unknown operation" }],
      structuredContent := some [("error", .str "Unknown operation")] }

end CalculatorMCP



/-! ## Helper lemmas -/

theorem TransportMode.ofString?_eq_none_of_ne (m : String)
    (h1 : m ≠ "streamable-http") (h2 : m ≠ "stdio") :
    TransportMode.ofString? m = none := by
  simp [TransportMode.ofString?, h1, h2]

/-- Inversion of a successful `BaseMCPConfigSchema.parse`: the returned
configuration's fields and the bounds they satisfy. -/
theorem BaseMCPConfigSchema.parse_ok_inversion (raw : RawConfig)
    (cfg : BaseMCPConfig) (h : BaseMCPConfigSchema.parse raw = .ok cfg) :
    TransportMode.ofString? (raw.transportMode.getD "stdio") =
      some cfg.transportMode ∧
    cfg.name = raw.name ∧ cfg.version = raw.version ∧
    cfg.host = raw.host.getD "localhost" ∧ cfg.port = raw.port.getD 3000 ∧
    cfg.transport = raw.transport ∧
    (2 ≤ cfg.name.length ∧ cfg.name.length ≤ 100) ∧
    (1 ≤ cfg.version.length ∧ cfg.version.length ≤ 10) ∧
    (2 ≤ cfg.host.length ∧ cfg.host.length ≤ 100) ∧
    (1 ≤ cfg.port ∧ cfg.port ≤ 65535) := by
  simp only [BaseMCPConfigSchema.parse] at h
  split at h
  · exact absurd h (by simp)
  next tm htm =>
    split at h
    next hc =>
      cases h
      exact ⟨htm, rfl, rfl, rfl, rfl, rfl, hc.1, hc.2.1, hc.2.2.1, hc.2.2.2⟩
    next hc => exact absurd h (by simp)

/-- `parse` fails whenever the conjunction of the four bound checks
fails. -/
theorem BaseMCPConfigSchema.parse_error_of_not_bounds (raw : RawConfig)
    (h : ¬((2 ≤ raw.name.length ∧ raw.name.length ≤ 100) ∧
          (1 ≤ raw.version.length ∧ raw.version.length ≤ 10) ∧
          (2 ≤ (raw.host.getD "localhost").length ∧
            (raw.host.getD "localhost").length ≤ 100) ∧
          (1 ≤ raw.port.getD 3000 ∧ raw.port.getD 3000 ≤ 65535))) :
    BaseMCPConfigSchema.parse raw = .error .invalidConfig := by
  simp only [BaseMCPConfigSchema.parse]
  split
  · rfl
  · exact if_neg h

/-- `parse` fails whenever the supplied transport-mode string is not one
of the two enum members. -/
theorem BaseMCPConfigSchema.parse_error_of_bad_mode (raw : RawConfig)
    (m : String) (hm : raw.transportMode = some m)
    (h1 : m ≠ "streamable-http") (h2 : m ≠ "stdio") :
    BaseMCPConfigSchema.parse raw = .error .invalidConfig := by
  have hnone : TransportMode.ofString? (raw.transportMode.getD "stdio") = none := by
    rw [hm]
    exact TransportMode.ofString?_eq_none_of_ne m h1 h2
  simp only [BaseMCPConfigSchema.parse]
  rw [hnone]

/-! ## Claim theorems -/

/-- C1: every configuration accepted by the validator comes back with
`1 ≤ len(version) ≤ 10`, `2 ≤ len(name) ≤ 100`, `1 ≤ port ≤ 65535` and a
recognized transport mode; omitted host/port/transport-mode are replaced
by `"localhost"`/`3000`/`stdio`; a configuration violating one of those
bounds, or naming an unrecognized transport mode, is rejected with a
`ValidationError`. -/
theorem C1_validator_bounds_defaults (raw : RawConfig) :
    (∀ cfg, BaseMCPConfigSchema.parse raw = .ok cfg →
      (1 ≤ cfg.version.length ∧ cfg.version.length ≤ 10) ∧
      (2 ≤ cfg.name.length ∧ cfg.name.length ≤ 100) ∧
      (1 ≤ cfg.port ∧ cfg.port ≤ 65535) ∧
      (cfg.transportMode = .stdio ∨ cfg.transportMode = .streamableHttp) ∧
      (raw.host = none → cfg.host = "localhost") ∧
      (raw.port = none → cfg.port = 3000) ∧
      (raw.transportMode = none → cfg.transportMode = .stdio)) ∧
    (¬(2 ≤ raw.name.length ∧ raw.name.length ≤ 100) →
      BaseMCPConfigSchema.parse raw = .error .invalidConfig) ∧
    (¬(1 ≤ raw.version.length ∧ raw.version.length ≤ 10) →
      BaseMCPConfigSchema.parse raw = .error .invalidConfig) ∧
    (∀ p : ℚ, raw.port = some p → ¬(1 ≤ p ∧ p ≤ 65535) →
      BaseMCPConfigSchema.parse raw = .error .invalidConfig) ∧
    (∀ m : String, raw.transportMode = some m →
      m ≠ "stdio" → m ≠ "streamable-http" →
      BaseMCPConfigSchema.parse raw = .error .invalidConfig) := by
  refine ⟨?_, ?_, ?_, ?_, ?_⟩
  · intro cfg h
    obtain ⟨htm, hn, hv, hh, hp, ht, hbn, hbv, hbh, hbp⟩ :=
      BaseMCPConfigSchema.parse_ok_inversion raw cfg h
    refine ⟨hbv, hbn, hbp, ?_, ?_, ?_, ?_⟩
    · cases cfg.transportMode
      · exact Or.inr rfl
      · exact Or.inl rfl
    · intro hhost; rw [hh, hhost]; rfl
    · intro hport; rw [hp, hport]; rfl
    · intro hmode
      rw [hmode] at htm
      simp only [Option.getD_none] at htm
      have : TransportMode.ofString? "stdio" = some .stdio := by decide
      rw [this] at htm
      exact (Option.some_injective _ htm).symm
  · intro hname
    exact BaseMCPConfigSchema.parse_error_of_not_bounds raw (fun hc => hname hc.1)
  · intro hver
    exact BaseMCPConfigSchema.parse_error_of_not_bounds raw (fun hc => hver hc.2.1)
  · intro p hp hbad
    refine BaseMCPConfigSchema.parse_error_of_not_bounds raw (fun hc => hbad ?_)
    have := hc.2.2.2
    rw [hp] at this
    exact this
  · intro m hm h1 h2
    exact BaseMCPConfigSchema.parse_error_of_bad_mode raw m hm h2 h1

/-- Witness for C1 at concrete inputs: the default-filled accepted
configuration `{name: "GreetingsMCP", version: "1.0.0"}` satisfies the
port bounds, and the one-character name `"T"` is rejected. -/
theorem C1_validator_bounds_defaults_witness :
    ((1 : ℚ) ≤ 3000 ∧ (3000 : ℚ) ≤ 65535) ∧
    BaseMCPConfigSchema.parse ⟨"T", "1.0.0", none, none, none, none⟩ =
      .error .invalidConfig := by
  constructor
  · exact ((C1_validator_bounds_defaults
      ⟨"GreetingsMCP", "1.0.0", none, none, none, none⟩).1
      { name := "GreetingsMCP", version := "1.0.0", host := "localhost",
        port := 3000, transportMode := .stdio, transport := none }
      (by rfl)).2.2.1
  · exact (C1_validator_bounds_defaults
      ⟨"T", "1.0.0", none, none, none, none⟩).2.1 (by decide)

theorem lookup_append_str {β : Type} (l₁ l₂ : List (String × β)) (k : String) :
    (l₁ ++ l₂).lookup k = ((l₁.lookup k).orElse fun _ => l₂.lookup k) := by
  induction l₁ with
  | nil => rfl
  | cons p l ih =>
    rcases p with ⟨k', v⟩
    by_cases h : k == k'
    · simp [List.lookup, h]
    · simp [List.lookup, h, ih]

/-- In stdio mode, `initializeTransport` always produces a present stdio
transporter and no HTTP transporter, whatever transport was supplied. -/
theorem BaseMCPServer.initializeTransport_stdio (tr : Option Transport) :
    (BaseMCPServer.initializeTransport .stdio tr).1 = none ∧
    ((BaseMCPServer.initializeTransport .stdio tr).2).isSome = true := by
  rcases tr with _ | t
  · exact ⟨rfl, rfl⟩
  · cases t <;> exact ⟨rfl, rfl⟩

/-- In streamable-http mode, `initializeTransport` always produces a
present HTTP transporter and no stdio transporter. -/
theorem BaseMCPServer.initializeTransport_http (tr : Option Transport) :
    ((BaseMCPServer.initializeTransport .streamableHttp tr).1).isSome = true ∧
    (BaseMCPServer.initializeTransport .streamableHttp tr).2 = none := by
  rcases tr with _ | t
  · exact ⟨rfl, rfl⟩
  · cases t <;> exact ⟨rfl, rfl⟩

/-- Inversion of a successful `BaseMCPServer` construction. -/
theorem BaseMCPServer.construct_ok_inversion
    (hook : Registry → Except DuplicateNameError Registry)
    (raw : RawConfig) (s : ServerCore)
    (h : BaseMCPServer.construct hook raw = .ok s) :
    ∃ cfg reg, BaseMCPConfigSchema.parse raw = .ok cfg ∧
      hook ⟨[], []⟩ = .ok reg ∧
      s = { name := cfg.name, version := cfg.version, host := cfg.host,
            port := cfg.port, transportMode := cfg.transportMode,
            httpTransporter :=
              (initializeTransport cfg.transportMode cfg.transport).1,
            stdioTransporter :=
              (initializeTransport cfg.transportMode cfg.transport).2,
            registry := reg } := by
  simp only [BaseMCPServer.construct] at h
  split at h
  · exact absurd h (by simp)
  next cfg hcfg =>
    split at h
    · exact absurd h (by simp)
    next reg hreg =>
      cases h
      exact ⟨cfg, reg, hcfg, hreg, rfl⟩

/-- C2: for every successfully constructed server, stdio mode means the
HTTP accessor returns absent and the stdio accessor returns present, and
streamable-http mode means the reverse: exactly one transport variant is
live, fixed by `initializeTransport` at construction (the model is a
pure construction, so the fields are never reassigned afterwards). -/
theorem C2_transport_exclusive
    (hook : Registry → Except DuplicateNameError Registry)
    (raw : RawConfig) (s : ServerCore)
    (h : BaseMCPServer.construct hook raw = .ok s) :
    (s.transportMode = .stdio →
      s.getHTTPTransporter = none ∧ (s.getStdioTransporter).isSome = true) ∧
    (s.transportMode = .streamableHttp →
      (s.getHTTPTransporter).isSome = true ∧ s.getStdioTransporter = none) := by
  obtain ⟨cfg, reg, hcfg, hreg, hs⟩ :=
    BaseMCPServer.construct_ok_inversion hook raw s h
  subst hs
  constructor
  · intro hmode
    simp only [ServerCore.getHTTPTransporter, ServerCore.getStdioTransporter]
    simp only at hmode
    rw [hmode]
    exact BaseMCPServer.initializeTransport_stdio cfg.transport
  · intro hmode
    simp only [ServerCore.getHTTPTransporter, ServerCore.getStdioTransporter]
    simp only at hmode
    rw [hmode]
    exact BaseMCPServer.initializeTransport_http cfg.transport

/-- Witness for C2: the GreetingsMCP server constructed in stdio mode has
no HTTP transporter and a present stdio transporter. -/
theorem C2_transport_exclusive_witness :
    ServerCore.getHTTPTransporter
      { name := "GreetingsMCP", version := "1.0.0", host := "localhost",
        port := 3000, transportMode := .stdio, httpTransporter := none,
        stdioTransporter := some ⟨0, 1⟩,
        registry :=
          ⟨[("greet", GreetingsMCP.greetDescriptor),
            ("regiter_custom_greeting",
              GreetingsMCP.regiterCustomGreetingDescriptor)],
           [("notice.txt", GreetingsMCP.noticeDescriptor)]⟩ } = none ∧
    (ServerCore.getStdioTransporter
      { name := "GreetingsMCP", version := "1.0.0", host := "localhost",
        port := 3000, transportMode := .stdio, httpTransporter := none,
        stdioTransporter := some ⟨0, 1⟩,
        registry :=
          ⟨[("greet", GreetingsMCP.greetDescriptor),
            ("regiter_custom_greeting",
              GreetingsMCP.regiterCustomGreetingDescriptor)],
           [("notice.txt", GreetingsMCP.noticeDescriptor)]⟩ }).isSome = true :=
  (C2_transport_exclusive GreetingsMCP.registerComponents
    ⟨"GreetingsMCP", "1.0.0", none, none, some "stdio", none⟩ _ (by rfl)).1 rfl

/-- The validator never inspects the supplied transport handle: it is
copied through unchanged and affects no check. -/
theorem BaseMCPConfigSchema.parse_transport_irrelevant (raw : RawConfig)
    (tr : Option Transport) :
    BaseMCPConfigSchema.parse { raw with transport := tr } =
      (BaseMCPConfigSchema.parse raw).map
        (fun cfg => { cfg with transport := tr }) := by
  simp only [BaseMCPConfigSchema.parse]
  cases TransportMode.ofString? (raw.transportMode.getD "stdio") with
  | none => rfl
  | some tm =>
    by_cases hc : (2 ≤ raw.name.length ∧ raw.name.length ≤ 100) ∧
        (1 ≤ raw.version.length ∧ raw.version.length ≤ 10) ∧
        (2 ≤ (raw.host.getD "localhost").length ∧
          (raw.host.getD "localhost").length ≤ 100) ∧
        (1 ≤ raw.port.getD 3000 ∧ raw.port.getD 3000 ≤ 65535)
    · simp only [hc, and_self, if_true]
      rfl
    · simp only [hc, if_false]
      rfl

/-- Supplying any transport handle never changes whether construction
succeeds. -/
theorem BaseMCPServer.construct_isOk_transport_irrelevant
    (hook : Registry → Except DuplicateNameError Registry)
    (raw : RawConfig) (tr : Option Transport) :
    (BaseMCPServer.construct hook { raw with transport := tr }).isOk =
      (BaseMCPServer.construct hook raw).isOk := by
  simp only [BaseMCPServer.construct,
    BaseMCPConfigSchema.parse_transport_irrelevant raw tr]
  cases BaseMCPConfigSchema.parse raw with
  | error e => rfl
  | ok cfg => cases hook ⟨[], []⟩ <;> rfl

/-- C3: a supplied transport handle whose variant does not match the
declared mode never makes construction fail; the handle is ignored and a
fresh default transport is created for the declared mode — for
streamable-http a transport with no session-identifier generator, for
stdio a fresh pipe transport on the process's standard streams. -/
theorem C3_mismatched_transport_fallback
    (hook : Registry → Except DuplicateNameError Registry)
    (raw : RawConfig) (t : StdioServerTransport)
    (t' : StreamableHTTPServerTransport) :
    BaseMCPServer.initializeTransport .streamableHttp (some (.stdio t)) =
      (some { sessionIdGenerator := none }, none) ∧
    BaseMCPServer.initializeTransport .stdio (some (.http t')) =
      (none, some StdioServerTransport.new) ∧
    (BaseMCPServer.construct hook
        { raw with transport := some (.stdio t) }).isOk =
      (BaseMCPServer.construct hook raw).isOk ∧
    (BaseMCPServer.construct hook
        { raw with transport := some (.http t') }).isOk =
      (BaseMCPServer.construct hook raw).isOk :=
  ⟨rfl, rfl,
    BaseMCPServer.construct_isOk_transport_irrelevant hook raw (some (.stdio t)),
    BaseMCPServer.construct_isOk_transport_irrelevant hook raw (some (.http t'))⟩

/-- C4: immediately after construction, `getMetadata()` returns exactly
the validated (post-default) configuration's
name/version/host/port/transportMode. -/
theorem C4_metadata_roundtrip
    (hook : Registry → Except DuplicateNameError Registry)
    (raw : RawConfig) (s : ServerCore) (cfg : BaseMCPConfig)
    (hs : BaseMCPServer.construct hook raw = .ok s)
    (hcfg : BaseMCPConfigSchema.parse raw = .ok cfg) :
    s.getMetadata =
      { name := cfg.name, version := cfg.version,
        transportMode := cfg.transportMode, host := cfg.host,
        port := cfg.port } := by
  obtain ⟨cfg', reg, hcfg', hreg, hs'⟩ :=
    BaseMCPServer.construct_ok_inversion hook raw s hs
  rw [hcfg'] at hcfg
  cases hcfg
  subst hs'
  rfl

/-- Witness for C4: the GreetingsMCP server constructed from
`{name: "GreetingsMCP", version: "1.0.0", transportMode: "stdio"}`
reports the defaulted host `"localhost"` and port `3000` in its
metadata. -/
theorem C4_metadata_roundtrip_witness :
    ServerCore.getMetadata
      { name := "GreetingsMCP", version := "1.0.0", host := "localhost",
        port := 3000, transportMode := .stdio, httpTransporter := none,
        stdioTransporter := some ⟨0, 1⟩,
        registry :=
          ⟨[("greet", GreetingsMCP.greetDescriptor),
            ("regiter_custom_greeting",
              GreetingsMCP.regiterCustomGreetingDescriptor)],
           [("notice.txt", GreetingsMCP.noticeDescriptor)]⟩ } =
      { name := "GreetingsMCP", version := "1.0.0", transportMode := .stdio,
        host := "localhost", port := 3000 } :=
  C4_metadata_roundtrip GreetingsMCP.registerComponents
    ⟨"GreetingsMCP", "1.0.0", none, none, some "stdio", none⟩ _
    { name := "GreetingsMCP", version := "1.0.0", host := "localhost",
      port := 3000, transportMode := .stdio, transport := none }
    (by rfl) (by rfl)

/-- C5: registering a second tool under an already-present name fails
with `DuplicateNameError`, while registering two tools under distinct
fresh names both succeed, leaving both tools reachable in the registry
(the SDK dispatches an invocation by this name lookup, so both stay
independently invocable). -/
theorem C5_duplicate_tool_names :
    (∀ (r : Registry) (n : String) (d : ToolDescriptor),
      (r.tools.lookup n).isSome → r.registerTool n d = .error ⟨n⟩) ∧
    (∀ (r : Registry) (n m : String) (d₁ d₂ : ToolDescriptor),
      r.tools.lookup n = none → r.tools.lookup m = none → n ≠ m →
      ∃ r₁ r₂, r.registerTool n d₁ = .ok r₁ ∧ r₁.registerTool m d₂ = .ok r₂ ∧
        r₂.tools.lookup n = some d₁ ∧ r₂.tools.lookup m = some d₂) := by
  constructor
  · intro r n d hdup
    simp only [Registry.registerTool, hdup, if_true]
  · intro r n m d₁ d₂ hn hm hnm
    refine ⟨{ r with tools := r.tools ++ [(n, d₁)] },
      { r with tools := (r.tools ++ [(n, d₁)]) ++ [(m, d₂)] },
      ?_, ?_, ?_, ?_⟩
    · simp only [Registry.registerTool, hn, Option.isSome_none,
        Bool.false_eq_true, if_false]
    · simp only [Registry.registerTool, lookup_append_str, hm]
      have hmn : (m == n) = false := by
        simpa using fun h => hnm (by simpa using h.symm)
      simp [List.lookup, hmn]
    · simp only [Registry.registerTool, lookup_append_str, hn]
      have hnn : (n == n) = true := by simp
      simp [List.lookup, hnn]
    · simp only [Registry.registerTool, lookup_append_str, hn, hm]
      have hmn : (m == n) = false := by
        simpa using fun h => hnm (by simpa using h.symm)
      simp [List.lookup, hmn]

/-- Witness for C5: re-registering `greet` on a registry that already has
it fails; registering `a` then `b` on an empty registry succeeds with
both present. -/
theorem C5_duplicate_tool_names_witness :
    Registry.registerTool
      ⟨[("greet", GreetingsMCP.greetDescriptor)], []⟩ "greet"
      GreetingsMCP.greetDescriptor = .error ⟨"greet"⟩ ∧
    (∃ r₁ r₂,
      Registry.registerTool ⟨[], []⟩ "a" GreetingsMCP.greetDescriptor = .ok r₁ ∧
      r₁.registerTool "b" GreetingsMCP.customGreetDescriptor = .ok r₂ ∧
      r₂.tools.lookup "a" = some GreetingsMCP.greetDescriptor ∧
      r₂.tools.lookup "b" = some GreetingsMCP.customGreetDescriptor) :=
  ⟨C5_duplicate_tool_names.1 ⟨[("greet", GreetingsMCP.greetDescriptor)], []⟩
      "greet" GreetingsMCP.greetDescriptor (by rfl),
   C5_duplicate_tool_names.2 ⟨[], []⟩ "a" "b" GreetingsMCP.greetDescriptor
      GreetingsMCP.customGreetDescriptor rfl rfl (by decide)⟩

/-- C6: when the `regiter_custom_greeting` handler registers the fresh
`custom_greet` tool during its own invocation, the invocation succeeds
and afterwards the registry holds all originally registered tools
unchanged plus the new tool; no unrelated entry is modified or removed
(the mutation is a single append on the single-owner registry). -/
theorem C6_handler_late_registration (raw : RawConfig) (s : ServerCore)
    (h : GreetingsMCP.construct raw = .ok s) :
    ∃ s' res, GreetingsMCP.registerCustomGreeting s = .ok (s', res) ∧
      s'.registry.tools = s.registry.tools ++
        [("custom_greet", GreetingsMCP.customGreetDescriptor)] ∧
      s'.registry.tools.lookup "greet" = some GreetingsMCP.greetDescriptor ∧
      s'.registry.tools.lookup "regiter_custom_greeting" =
        some GreetingsMCP.regiterCustomGreetingDescriptor ∧
      s'.registry.tools.lookup "custom_greet" =
        some GreetingsMCP.customGreetDescriptor ∧
      s'.registry.resources = s.registry.resources ∧
      (∀ n, n ≠ "custom_greet" →
        s'.registry.tools.lookup n = s.registry.tools.lookup n) := by
  obtain ⟨cfg, reg, hcfg, hreg, hs'⟩ :=
    BaseMCPServer.construct_ok_inversion GreetingsMCP.registerComponents raw s h
  have hregval : reg =
      ⟨[("greet", GreetingsMCP.greetDescriptor),
        ("regiter_custom_greeting",
          GreetingsMCP.regiterCustomGreetingDescriptor)],
       [("notice.txt", GreetingsMCP.noticeDescriptor)]⟩ := by
    have hcomp : GreetingsMCP.registerComponents ⟨[], []⟩ =
        .ok ⟨[("greet", GreetingsMCP.greetDescriptor),
              ("regiter_custom_greeting",
                GreetingsMCP.regiterCustomGreetingDescriptor)],
             [("notice.txt", GreetingsMCP.noticeDescriptor)]⟩ := by rfl
    rw [hcomp] at hreg
    exact (Except.ok.inj hreg).symm
  subst hregval
  subst hs'
  refine ⟨_, _, by rfl, by rfl, by rfl, by rfl, by rfl, by rfl, ?_⟩
  intro n hn
  have hb : (n == "custom_greet") = false := beq_eq_false_iff_ne.mpr hn
  simp [List.lookup, hb]

/-- Witness for C6: on the concretely constructed GreetingsMCP server,
invoking the late-registration handler leaves `greet`,
`regiter_custom_greeting` and the new `custom_greet` all present. -/
theorem C6_handler_late_registration_witness :
    ∃ s' res, GreetingsMCP.registerCustomGreeting
      { name := "GreetingsMCP", version := "1.0.0", host := "localhost",
        port := 3000, transportMode := .stdio, httpTransporter := none,
        stdioTransporter := some ⟨0, 1⟩,
        registry :=
          ⟨[("greet", GreetingsMCP.greetDescriptor),
            ("regiter_custom_greeting",
              GreetingsMCP.regiterCustomGreetingDescriptor)],
           [("notice.txt", GreetingsMCP.noticeDescriptor)]⟩ } = .ok (s', res) ∧
      s'.registry.tools =
        (⟨[("greet", GreetingsMCP.greetDescriptor),
           ("regiter_custom_greeting",
             GreetingsMCP.regiterCustomGreetingDescriptor)],
          [("notice.txt", GreetingsMCP.noticeDescriptor)]⟩ : Registry).tools ++
          [("custom_greet", GreetingsMCP.customGreetDescriptor)] ∧
      s'.registry.tools.lookup "greet" = some GreetingsMCP.greetDescriptor ∧
      s'.registry.tools.lookup "regiter_custom_greeting" =
        some GreetingsMCP.regiterCustomGreetingDescriptor ∧
      s'.registry.tools.lookup "custom_greet" =
        some GreetingsMCP.customGreetDescriptor ∧
      s'.registry.resources =
        (⟨[("greet", GreetingsMCP.greetDescriptor),
           ("regiter_custom_greeting",
             GreetingsMCP.regiterCustomGreetingDescriptor)],
          [("notice.txt", GreetingsMCP.noticeDescriptor)]⟩ : Registry).resources ∧
      (∀ n, n ≠ "custom_greet" →
        s'.registry.tools.lookup n =
          (⟨[("greet", GreetingsMCP.greetDescriptor),
             ("regiter_custom_greeting",
               GreetingsMCP.regiterCustomGreetingDescriptor)],
            [("notice.txt", GreetingsMCP.noticeDescriptor)]⟩ : Registry).tools.lookup n) :=
  C6_handler_late_registration
    ⟨"GreetingsMCP", "1.0.0", none, none, some "stdio", none⟩
    { name := "GreetingsMCP", version := "1.0.0", host := "localhost",
      port := 3000, transportMode := .stdio, httpTransporter := none,
      stdioTransporter := some ⟨0, 1⟩,
      registry :=
        ⟨[("greet", GreetingsMCP.greetDescriptor),
          ("regiter_custom_greeting",
            GreetingsMCP.regiterCustomGreetingDescriptor)],
         [("notice.txt", GreetingsMCP.noticeDescriptor)]⟩ } (by rfl)

/-- C7 counterexample: the scenario's configuration
`{name: "T", version: "1.0", transportMode: "stdio"}` does not construct
a server — the validator requires a name of at least 2 characters, so
construction fails with a `ValidationError` and the `greet` invocation is
never reached. -/
theorem C7_counterexample_name_too_short :
    GreetingsMCP.construct ⟨"T", "1.0", none, none, some "stdio", none⟩ =
      .error (.validation .invalidConfig) := by rfl

/-- C7 (amended): constructing with the one-character name `"T"` fails
with a `ValidationError`; with a name of the minimum legal length 2,
e.g. `"Ty"`, construction succeeds and invoking `greet` with
`{name: "Ada"}` returns a result whose structured payload's text field
(and text content) equals `"Hello, Ada! Welcome to Ty version 1.0."`. -/
theorem C7_greet_scenario_amended :
    GreetingsMCP.construct ⟨"T", "1.0", none, none, some "stdio", none⟩ =
      .error (.validation .invalidConfig) ∧
    ∃ s, GreetingsMCP.construct ⟨"Ty", "1.0", none, none, some "stdio", none⟩ =
        .ok s ∧
      GreetingsMCP.greet s ⟨"Ada"⟩ =
        { content := [{ type := "text",
                        text := "Hello, Ada! Welcome to Ty version 1.0." }],
          structuredContent :=
            some [("text", .str "Hello, Ada! Welcome to Ty version 1.0.")] } :=
  ⟨by rfl, ⟨_, by rfl, by rfl⟩⟩

/-- C8: the `calculate` tool invoked with
`{operation: "divide", a: 10, b: 0}` returns normally with the structured
error payload `{error: "Division by zero"}` and the matching text content
entry (no exception is thrown — the handler is total); and for every
divide invocation with `b ≠ 0` the structured payload's result field is
`a / b`. -/
theorem C8_calculate_divide (a b : ℚ) (hb : b ≠ 0) :
    CalculatorMCP.calculate ⟨"divide", 10, 0⟩ =
      { content := [{ type := "text", text := "Error: Division by zero" }],
        structuredContent := some [("error", .str "Division by zero")] } ∧
    ∃ expr, CalculatorMCP.calculate ⟨"divide", a, b⟩ =
      { content := [{ type := "text", text := expr }],
        structuredContent :=
          some [("result", .num (a / b)), ("expression", .str expr)] } := by
  constructor
  · rfl
  · have hred : CalculatorMCP.calculate ⟨"divide", a, b⟩ =
        if b = 0 then
          { content := [{ type := "text", text := "Error: Division by zero" }],
            structuredContent := some [("error", .str "Division by zero")] }
        else
          { content := [{ type := "text",
                          text := jsNumberToString a ++ " ÷ " ++
                            jsNumberToString b ++ " = " ++
                            jsNumberToString (a / b) }],
            structuredContent :=
              some [("result", .num (a / b)),
                ("expression", .str (jsNumberToString a ++ " ÷ " ++
                  jsNumberToString b ++ " = " ++ jsNumberToString (a / b)))] } := by
      rfl
    rw [hred, if_neg hb]
    exact ⟨_, rfl⟩

/-- Witness for C8 at `a = 10`, `b = 2`: the division-by-zero input
yields the structured error and `10 / 2` yields result `5`. -/
theorem C8_calculate_divide_witness :
    CalculatorMCP.calculate ⟨"divide", 10, 0⟩ =
      { content := [{ type := "text", text := "Error: Division by zero" }],
        structuredContent := some [("error", .str "Division by zero")] } ∧
    ∃ expr, CalculatorMCP.calculate ⟨"divide", 10, 2⟩ =
      { content := [{ type := "text", text := expr }],
        structuredContent :=
          some [("result", .num ((10 : ℚ) / 2)), ("expression", .str expr)] } :=
  C8_calculate_divide 10 2 (by norm_num)

/-- C9 counterexample: the schema's port check is `z.number().min(1)
.max(65535)` with no integrality constraint, so the non-integer port
`3000.5` is accepted, not rejected. -/
theorem C9_counterexample_fractional_port_accepted :
    BaseMCPConfigSchema.parse
      ⟨"CalculatorMCP", "1.0.0", none, some ((6001 : ℚ) / 2), none, none⟩ =
      .ok { name := "CalculatorMCP", version := "1.0.0", host := "localhost",
            port := (6001 : ℚ) / 2, transportMode := .stdio,
            transport := none } := by
  have hcond : (2 ≤ ("CalculatorMCP" : String).length ∧
        ("CalculatorMCP" : String).length ≤ 100) ∧
      (1 ≤ ("1.0.0" : String).length ∧ ("1.0.0" : String).length ≤ 10) ∧
      (2 ≤ ("localhost" : String).length ∧
        ("localhost" : String).length ≤ 100) ∧
      (1 ≤ (6001 : ℚ) / 2 ∧ (6001 : ℚ) / 2 ≤ 65535) :=
    ⟨⟨by decide, by decide⟩, ⟨by decide, by decide⟩,
     ⟨by decide, by decide⟩, ⟨by norm_num, by norm_num⟩⟩
  exact if_pos hcond

/-- C9 (amended): a configuration whose port number lies outside the
range `[1, 65535]` is rejected with a `ValidationError`, but a
non-integer port inside the range is accepted (the schema checks only
the numeric range): `3000.5` passes validation and is returned as the
port. -/
theorem C9_port_range_amended (raw : RawConfig) (p : ℚ)
    (hp : raw.port = some p) (hbad : ¬(1 ≤ p ∧ p ≤ 65535)) :
    BaseMCPConfigSchema.parse raw = .error .invalidConfig ∧
    ∃ cfg, BaseMCPConfigSchema.parse
        ⟨"CalculatorMCP", "1.0.0", none, some ((6001 : ℚ) / 2), none, none⟩ =
        .ok cfg ∧
      cfg.port = (6001 : ℚ) / 2 := by
  have hcond : (2 ≤ ("CalculatorMCP" : String).length ∧
        ("CalculatorMCP" : String).length ≤ 100) ∧
      (1 ≤ ("1.0.0" : String).length ∧ ("1.0.0" : String).length ≤ 10) ∧
      (2 ≤ ("localhost" : String).length ∧
        ("localhost" : String).length ≤ 100) ∧
      (1 ≤ (6001 : ℚ) / 2 ∧ (6001 : ℚ) / 2 ≤ 65535) :=
    ⟨⟨by decide, by decide⟩, ⟨by decide, by decide⟩,
     ⟨by decide, by decide⟩, ⟨by norm_num, by norm_num⟩⟩
  refine ⟨?_, ⟨{ name := "CalculatorMCP", version := "1.0.0",
                 host := "localhost", port := (6001 : ℚ) / 2,
                 transportMode := .stdio, transport := none },
    if_pos hcond, rfl⟩⟩
  refine BaseMCPConfigSchema.parse_error_of_not_bounds raw (fun hc => hbad ?_)
  have hport := hc.2.2.2
  rw [hp] at hport
  exact hport

/-- Witness for C9 (amended) at the out-of-range port `70000` and the
in-range fractional port `3000.5`. -/
theorem C9_port_range_amended_witness :
    BaseMCPConfigSchema.parse
      ⟨"CalculatorMCP", "1.0.0", none, some 70000, none, none⟩ =
      .error .invalidConfig ∧
    ∃ cfg, BaseMCPConfigSchema.parse
        ⟨"CalculatorMCP", "1.0.0", none, some ((6001 : ℚ) / 2), none, none⟩ =
        .ok cfg ∧
      cfg.port = (6001 : ℚ) / 2 :=
  C9_port_range_amended
    ⟨"CalculatorMCP", "1.0.0", none, some 70000, none, none⟩ 70000 rfl
    (by norm_num)

/-- C10: a supplied host string shorter than 2 characters or longer than
100 characters is rejected with a validation error — the schema bounds
host length to 2–100 even though host is otherwise free-form. -/
theorem C10_host_length_bounds (raw : RawConfig) (h : String)
    (hh : raw.host = some h) (hl : h.length < 2 ∨ 100 < h.length) :
    BaseMCPConfigSchema.parse raw = .error .invalidConfig := by
  refine BaseMCPConfigSchema.parse_error_of_not_bounds raw (fun hc => ?_)
  have hhost := hc.2.2.1
  rw [hh] at hhost
  simp only [Option.getD_some] at hhost
  rcases hl with hl | hl
  · omega
  · omega

/-- Witness for C10: the single-character host `"a"` is rejected. -/
theorem C10_host_length_bounds_witness :
    BaseMCPConfigSchema.parse
      ⟨"GreetingsMCP", "1.0.0", some "a", none, none, none⟩ =
      .error .invalidConfig :=
  C10_host_length_bounds
    ⟨"GreetingsMCP", "1.0.0", some "a", none, none, none⟩ "a" rfl
    (by decide)
